import Mathlib

/-!
Shallow embedding of the core of `netbox-plugin-audit`:
the metadata resolver and check/aggregation engine of
`src/netbox_plugin_audit/auditor.py`, the result model of
`src/netbox_plugin_audit/checks/__init__.py`, the version-consistency
check of `src/netbox_plugin_audit/checks/versioning.py`, the packaging
check of `src/netbox_plugin_audit/checks/packaging.py`, and the exit-code
policy of `src/netbox_plugin_audit/cli.py`.

Filesystem contents, parsed Python modules and external tool/network
outcomes are modelled as explicit data (`FS`, `PyFile`, `BuildEnv`); the
functions on them are translated statement by statement from the Python
source.
-/

namespace NetboxAudit

/-- Severity levels of a check result (`class Severity` in
`checks/__init__.py`). -/
inductive Severity where
  | pass
  | info
  | warning
  | error
deriving DecidableEq, Repr

/-- One diagnostic result (`@dataclass CheckResult`): name, severity,
message, and a category string that defaults to the empty string. -/
structure CheckResult where
  name : String
  severity : Severity
  message : String
  category : String
deriving DecidableEq, Repr

/-- A named group of results (`@dataclass CategoryResult`): name, icon and
the ordered list of results. -/
structure CategoryResult where
  name : String
  icon : String
  results : List CheckResult
deriving DecidableEq, Repr

/-- Property `passed`: the number of results with severity PASS. -/
def CategoryResult.passed (c : CategoryResult) : Nat :=
  c.results.countP (fun r => r.severity == Severity.pass)

/-- Property `total`: the length of the result list. -/
def CategoryResult.total (c : CategoryResult) : Nat :=
  c.results.length

/-- Property `errors`: the number of results with severity ERROR. -/
def CategoryResult.errors (c : CategoryResult) : Nat :=
  c.results.countP (fun r => r.severity == Severity.error)

/-- Property `warnings`: the number of results with severity WARNING. -/
def CategoryResult.warnings (c : CategoryResult) : Nat :=
  c.results.countP (fun r => r.severity == Severity.warning)

/-- Property `infos`: the number of results with severity INFO. -/
def CategoryResult.infos (c : CategoryResult) : Nat :=
  c.results.countP (fun r => r.severity == Severity.info)

/-- A top-level statement of a parsed Python module, as far as the audit
inspects it with `ast.walk`: an assignment of a literal constant to a
single name (the constant already rendered through Python's `str`), an
assignment whose right-hand side is not a literal constant, a
`from <module> import <names>` statement, or anything else. -/
inductive Stmt where
  | assignConst (target : String) (value : String)
  | assignOther (target : String)
  | importFrom (module : String) (names : List String)
  | other
deriving DecidableEq, Repr

/-- A Python source file as the audit reads it: whether `ast.parse`
succeeds (reading failures are folded into `parseOk = false`, since every
caller catches both identically), the statements, and the two raw-text
facts the version logic probes with substring tests: whether
`"importlib.metadata"` or `"importlib import metadata"` occurs in the
source, and whether `"metadata.version("` occurs. -/
structure PyFile where
  parseOk : Bool
  stmts : List Stmt
  hasImportlibMeta : Bool
  hasMetadataVersionCall : Bool
deriving DecidableEq, Repr

/-- The plugin root directory as the audit reads it. `entries` is
`os.listdir(root)`; `isDir e` whether `<root>/<e>` is a directory;
`initPy e` the parsed `<root>/<e>/__init__.py` (none when not a file);
`versionPy e` likewise for `<root>/<e>/version.py`; `pyprojectExists`
whether `<root>/pyproject.toml` is a file, `pyprojectParseOk` whether
`tomllib.load` succeeds on it, `pyprojectVersion` and `pyprojectName` the
values of `project.version` and `project.name` inside it;
`hasSetupPy` whether `<root>/setup.py` is a file; `changelogVersion` the
result of `_get_changelog_version` (the first `X.Y.Z` heading of the
first changelog variant file found, none when no file or no match). -/
structure FS where
  entries : List String
  isDir : String → Bool
  basename : String
  initPy : String → Option PyFile
  versionPy : String → Option PyFile
  pyprojectExists : Bool
  pyprojectParseOk : Bool
  pyprojectVersion : Option String
  pyprojectName : Option String
  hasSetupPy : Bool
  changelogVersion : Option String

/-- Python truthiness of an optional string: `None` and `""` are falsy. -/
def truthy : Option String → Bool
  | none => false
  | some s => !(s == "")

/-- The first `ast.walk` loop shared by `auditor._get_plugin_version`,
`auditor._get_version_from_file`, `versioning._get_init_version` and
`versioning._get_version_from_file`: the first assignment whose target is
`__version__` and whose value is a literal constant; assignments of
non-constant expressions to `__version__` are skipped, not an error. -/
def findVersionAssign (stmts : List Stmt) : Option String :=
  stmts.findSome? (fun s =>
    match s with
    | Stmt.assignConst t v => if t == ("__version__") then some v else none
    | _ => none)

/-- The second `ast.walk` loop: is there a `from ... version import ...`
statement (the code compares `node.module == "version"`) whose imported
names include `__version__`? -/
def hasVersionImport (stmts : List Stmt) : Bool :=
  stmts.any (fun s =>
    match s with
    | Stmt.importFrom m ns => m == ("version") && ns.any (fun n => n == ("__version__"))
    | _ => false)

/-- Translation of `_get_version_from_file(plugin_path, pkg_dir,
"version.py")` (identical in `auditor.py` and `checks/versioning.py`):
read and parse `version.py`, then take the first literal `__version__`
assignment; any failure yields none. -/
def getVersionFromFile (fs : FS) (pkg : String) : Option String :=
  match fs.versionPy pkg with
  | none => none
  | some f => if f.parseOk then findVersionAssign f.stmts else none

/-- The sibling-import step of both version resolvers: when the module has
a `from .version import __version__` statement, read `version.py`; the
value is used only when truthy (`if ver: return ver`), otherwise
resolution falls through. -/
def importVersionLookup (fs : FS) (pkg : String) (stmts : List Stmt) : Option String :=
  if hasVersionImport stmts then
    match getVersionFromFile fs pkg with
    | some v => if v == ("") then none else some v
    | none => none
  else none

/-- Translation of `_get_pyproject_version` (identical in `auditor.py` and
`checks/versioning.py`): `data.get("project", {}).get("version")` of the
parsed `pyproject.toml`, none when the file is missing or unparseable. -/
def getPyprojectVersion (fs : FS) : Option String :=
  if fs.pyprojectExists && fs.pyprojectParseOk then fs.pyprojectVersion else none

/-- Which branch of `_get_plugin_version` produced the resolved version:
the spec's `VersionCandidate.origin` for the branches the code has. -/
inductive VersionOrigin where
  | directConstant
  | indirectModuleImport
  | dynamicMetadataLookup
deriving DecidableEq, Repr

/-- Translation of `auditor._get_plugin_version`, with the branch that
returns recorded as a `VersionOrigin`: first a literal `__version__`
constant in `__init__.py`, then the `from .version import __version__`
indirection, then — when the raw source mentions `importlib.metadata` or
`importlib import metadata` — the `pyproject.toml` version. Missing file
or parse failure yields none. -/
def getPluginVersionTagged (fs : FS) (pkg : String) : Option (String × VersionOrigin) :=
  match fs.initPy pkg with
  | none => none
  | some f =>
    if f.parseOk then
      match findVersionAssign f.stmts with
      | some v => some (v, VersionOrigin.directConstant)
      | none =>
        match importVersionLookup fs pkg f.stmts with
        | some v => some (v, VersionOrigin.indirectModuleImport)
        | none =>
          if f.hasImportlibMeta then
            match getPyprojectVersion fs with
            | some v => some (v, VersionOrigin.dynamicMetadataLookup)
            | none => none
          else none
    else none

/-- The value `auditor._get_plugin_version` returns: the tagged resolution
without the origin. -/
def getPluginVersion (fs : FS) (pkg : String) : Option String :=
  (getPluginVersionTagged fs pkg).map Prod.fst

/-- Return value of `versioning._get_init_version`: a static version
string, the `("dynamic", "importlib.metadata")` marker, or none. -/
inductive InitVersion where
  | static (v : String)
  | dynamic
  | absent
deriving DecidableEq, Repr

/-- Translation of `versioning._get_init_version`. It differs from
`auditor._get_plugin_version` in its last step: the dynamic marker needs
both the `importlib.metadata` substring and a `metadata.version(` call in
the raw source, and it reports the marker instead of reading
`pyproject.toml`. -/
def getInitVersion (fs : FS) (pkg : String) : InitVersion :=
  match fs.initPy pkg with
  | none => InitVersion.absent
  | some f =>
    if f.parseOk then
      match findVersionAssign f.stmts with
      | some v => InitVersion.static v
      | none =>
        match importVersionLookup fs pkg f.stmts with
        | some v => InitVersion.static v
        | none =>
          if f.hasImportlibMeta && f.hasMetadataVersionCall then InitVersion.dynamic
          else InitVersion.absent
    else InitVersion.absent

/-- Splitting a character list at every `'.'` (the grouping
`re.match(r"^\d+\.\d+\.\d+$", ...)` imposes): `n` dots yield `n + 1`
groups, empty groups included. -/
def splitDots : List Char → List (List Char)
  | [] => [[]]
  | ch :: rest =>
    if ch == ('.') then [] :: splitDots rest
    else
      match splitDots rest with
      | [] => [[ch]]
      | g :: gs => (ch :: g) :: gs

/-- Body of Python's `re.match(r"^\d+\.\d+\.\d+$", s)` on characters with
no trailing newline: exactly three nonempty all-digit groups joined by
dots. -/
def semverCoreChars (cs : List Char) : Bool :=
  match splitDots cs with
  | [a, b, c] => !a.isEmpty && !b.isEmpty && !c.isEmpty && (a ++ b ++ c).all Char.isDigit
  | _ => false

/-- Python's `re.match(r"^\d+\.\d+\.\d+$", s)`: as `semverCoreChars` on
the string's characters, except that `$` also matches just before one
trailing newline. -/
def semverMatch (s : String) : Bool :=
  semverCoreChars s.data ||
    (match s.data.getLast? with
     | some ch => ch == ('\n') && semverCoreChars s.data.dropLast
     | none => false)

/-- The branch of `check_versioning` taken when a static (non-dynamic,
truthy) `__version__` string was found: the semver result on it, then the
comparison with `pyproject.toml` (byte-equality PASS, mismatch ERROR; with
no truthy pyproject version, INFO when `setup.py` exists, else ERROR). -/
def staticVersionResults (fs : FS) (v : String) (pyprojVer : Option String) : List CheckResult :=
  (if semverMatch v then
    [⟨"semver", Severity.pass, "__version__ is valid semver: " ++ v, ""⟩]
  else
    [⟨"semver", Severity.warning, "__version__ may not be semver: " ++ v, ""⟩]) ++
  (if truthy pyprojVer then
    let p := pyprojVer.getD ("")
    if v == p then
      [⟨"pyproject_match", Severity.pass, "pyproject.toml version matches (" ++ p ++ ")", ""⟩]
    else
      [⟨"pyproject_match", Severity.error,
        "Version mismatch: __init__.py=" ++ v ++ ", pyproject.toml=" ++ p, ""⟩]
  else if fs.hasSetupPy then
    [⟨"pyproject_match", Severity.info, "Version in setup.py (consider pyproject.toml)", ""⟩]
  else
    [⟨"pyproject_match", Severity.error, "No version in pyproject.toml", ""⟩])

/-- The branch of `check_versioning` taken when no truthy `__version__`
was found and the module is not dynamic. -/
def noInitVersionResults (fs : FS) (pyprojVer : Option String) : List CheckResult :=
  [⟨"semver", Severity.error, "__version__ not found in __init__.py", ""⟩] ++
  (if !(truthy pyprojVer) then
    if fs.hasSetupPy then
      [⟨"pyproject_match", Severity.info, "Version in setup.py (consider pyproject.toml)", ""⟩]
    else
      [⟨"pyproject_match", Severity.error, "No version in pyproject.toml", ""⟩]
  else [])

/-- The dynamic branch of `check_versioning`: the marker PASS result, then
`pyproject.toml` as the sole point of truth (PASS when its version is
semver, WARNING otherwise, ERROR when absent). -/
def dynamicVersionResults (pyprojVer : Option String) : List CheckResult :=
  [⟨"semver", Severity.pass,
    "Version via importlib.metadata (reads from pyproject.toml at runtime)", ""⟩] ++
  (if truthy pyprojVer then
    let p := pyprojVer.getD ("")
    if semverMatch p then
      [⟨"pyproject_match", Severity.pass, "pyproject.toml version: " ++ p, ""⟩]
    else
      [⟨"pyproject_match", Severity.warning,
        "pyproject.toml version may not be semver: " ++ p, ""⟩]
  else
    [⟨"pyproject_match", Severity.error, "No version in pyproject.toml", ""⟩])

/-- The trailing changelog comparison of `check_versioning`, on the final
`init_ver` (reassigned to the pyproject version in the dynamic branch):
PASS when equal, WARNING when both truthy but unequal, INFO when the
changelog version is falsy, nothing when the changelog has a version but
`init_ver` is falsy. -/
def changelogMatchResults (finalInitVer clVer : Option String) : List CheckResult :=
  if truthy finalInitVer && truthy clVer then
    let iv := finalInitVer.getD ("")
    let cv := clVer.getD ("")
    if iv == cv then
      [⟨"changelog_match", Severity.pass, "CHANGELOG latest version matches (" ++ cv ++ ")", ""⟩]
    else
      [⟨"changelog_match", Severity.warning,
        "CHANGELOG latest (" ++ cv ++ ") != version (" ++ iv ++ ")", ""⟩]
  else if !(truthy clVer) then
    [⟨"changelog_match", Severity.info, "No version found in changelog", ""⟩]
  else []

/-- Translation of `versioning.check_versioning(plugin_path, pkg_dir)`.
A falsy package directory short-circuits to a single ERROR result;
otherwise the init/pyproject/changelog versions are resolved and the
branch on the dynamic marker and on truthiness of `init_ver` follows the
Python `if`/`elif`/`else` chain literally. -/
def check_versioning (fs : FS) (pkgDir : Option String) : CategoryResult :=
  if !(truthy pkgDir) then
    ⟨"Versioning", "V", [⟨"package", Severity.error, "No package directory", ""⟩]⟩
  else
    let pkg := pkgDir.getD ("")
    let initVerRaw := getInitVersion fs pkg
    let pyprojVer := getPyprojectVersion fs
    let clVer := fs.changelogVersion
    let isDynamic := initVerRaw == InitVersion.dynamic
    let initVer : Option String :=
      if isDynamic then none else
        match initVerRaw with
        | InitVersion.static v => some v
        | _ => none
    let mainResults : List CheckResult :=
      if isDynamic then dynamicVersionResults pyprojVer
      else if truthy initVer then staticVersionResults fs (initVer.getD ("")) pyprojVer
      else noInitVersionResults fs pyprojVer
    let finalInitVer := if isDynamic then pyprojVer else initVer
    ⟨"Versioning", "V", mainResults ++ changelogMatchResults finalInitVer clVer⟩

/-- Outcome of `python -m build` as `check_packaging` observes it:
success with the files found in the temp output directory, failure with
the combined stdout and stderr, a `FileNotFoundError` (tool missing), or
a timeout. -/
inductive BuildOutcome where
  | success (builtFiles : List String)
  | failed (output : String)
  | toolMissing
  | timedOut
deriving DecidableEq, Repr

/-- Outcome of `python -m twine check` on the built files. -/
inductive TwineOutcome where
  | passed
  | failed (output : String)
  | missing
deriving DecidableEq, Repr

/-- Outcome of the PyPI JSON-API request in `_check_pypi`. -/
inductive PypiOutcome where
  | found (latest : String) (projectUrls : List String)
  | notFound
  | httpError (code : Nat)
  | otherError (msg : String)
deriving DecidableEq, Repr

/-- The external outcomes `check_packaging` consumes: the build tool, the
twine validator and the PyPI request. -/
structure BuildEnv where
  build : BuildOutcome
  twine : TwineOutcome
  pypi : PypiOutcome

/-- The build/twine results of `check_packaging` (everything inside the
`with tempfile.TemporaryDirectory()` block): on success, the build PASS
naming the built files, wheel/sdist presence results, and the twine
results; otherwise a single result for the failure mode, with the build
error truncated to 300 characters. -/
def buildResults (benv : BuildEnv) : List CheckResult :=
  match benv.build with
  | BuildOutcome.success files =>
    [⟨"build", Severity.pass, "Build succeeded: " ++ String.intercalate (", ") files, ""⟩] ++
    (if files.any (fun f => f.endsWith (".whl")) then
      [⟨"wheel", Severity.pass, "Wheel (.whl) built", ""⟩]
    else
      [⟨"wheel", Severity.warning, "No wheel (.whl) built", ""⟩]) ++
    (if files.any (fun f => f.endsWith (".tar.gz")) then
      [⟨"sdist", Severity.pass, "Source dist (.tar.gz) built", ""⟩]
    else
      [⟨"sdist", Severity.info, "No source dist (.tar.gz) built", ""⟩]) ++
    (match benv.twine with
      | TwineOutcome.passed => [⟨"twine", Severity.pass, "twine check passed", ""⟩]
      | TwineOutcome.failed out =>
        [⟨"twine", Severity.warning, "twine check failed: " ++ out.take 200, ""⟩]
      | TwineOutcome.missing => [⟨"twine", Severity.info, "twine not installed (skipped)", ""⟩])
  | BuildOutcome.failed out =>
    [⟨"build", Severity.error,
      "Build failed: " ++ (if out.length > 300 then out.take 300 ++ "..." else out), ""⟩]
  | BuildOutcome.toolMissing =>
    [⟨"build", Severity.info, "python -m build not available (skipped)", ""⟩]
  | BuildOutcome.timedOut =>
    [⟨"build", Severity.warning, "Build timed out (120s)", ""⟩]

/-- Translation of `packaging._check_pypi`: nothing when `pyproject.toml`
is missing, unparseable or names no project; otherwise the results of the
PyPI presence, version-comparison and project-URL checks. -/
def pypiResults (fs : FS) (benv : BuildEnv) : List CheckResult :=
  if !fs.pyprojectExists then []
  else if !fs.pyprojectParseOk then []
  else
    let pkgName := fs.pyprojectName.getD ("")
    if pkgName == ("") then []
    else
      let localVersion := fs.pyprojectVersion.getD ("")
      match benv.pypi with
      | PypiOutcome.found latest projectUrls =>
        [⟨"pypi_exists", Severity.pass,
          pkgName ++ " found on PyPI (latest: " ++ latest ++ ")", ""⟩] ++
        (if !(localVersion == ("")) && !(latest == ("")) then
          if localVersion == latest then
            [⟨"pypi_version", Severity.pass,
              "Local version matches PyPI (" ++ localVersion ++ ")", ""⟩]
          else
            [⟨"pypi_version", Severity.info,
              "Local version (" ++ localVersion ++ ") differs from PyPI (" ++ latest ++ ")", ""⟩]
        else []) ++
        (if !projectUrls.isEmpty then
          [⟨"pypi_project_urls", Severity.pass,
            "PyPI project URLs: " ++ String.intercalate (", ") projectUrls, ""⟩]
        else
          [⟨"pypi_project_urls", Severity.warning, "No project URLs on PyPI listing", ""⟩])
      | PypiOutcome.notFound =>
        [⟨"pypi_exists", Severity.info, pkgName ++ " not found on PyPI (not yet published?)", ""⟩]
      | PypiOutcome.httpError code =>
        [⟨"pypi_exists", Severity.info, "Could not check PyPI: HTTP " ++ toString code, ""⟩]
      | PypiOutcome.otherError msg =>
        [⟨"pypi_exists", Severity.info, "Could not check PyPI: " ++ msg, ""⟩]

/-- Translation of `packaging.check_packaging(plugin_path)`: with no
`pyproject.toml` the category is a single ERROR result and returns at
once; otherwise the build/twine results followed by the PyPI results. -/
def check_packaging (benv : BuildEnv) (fs : FS) : CategoryResult :=
  if !fs.pyprojectExists then
    ⟨"Packaging", "B", [⟨"pyproject", Severity.error, "pyproject.toml not found, cannot build", ""⟩]⟩
  else
    ⟨"Packaging", "B", buildResults benv ++ pypiResults fs benv⟩

/-- Does the first character list start with the second (Python's
`str.startswith` on the characters)? -/
def dataStartsWith : List Char → List Char → Bool
  | _, [] => true
  | [], _ :: _ => false
  | c :: cs, p :: ps => c == p && dataStartsWith cs ps

/-- Lexicographic comparison of character lists by code point: the string
order Python's `sorted` uses. -/
def charsLe : List Char → List Char → Bool
  | [], _ => true
  | _ :: _, [] => false
  | a :: as, b :: bs => if a == b then charsLe as bs else decide (a < b)

/-- Lexicographic string order, on the strings' characters. -/
def strLe (a b : String) : Bool :=
  charsLe a.data b.data

/-- Is a root child a plugin package: a directory whose name starts with
`netbox_` and that contains an `__init__.py` file (the condition of
`auditor._detect_plugin_package`). -/
def qualifies (fs : FS) (entry : String) : Bool :=
  fs.isDir entry && dataStartsWith entry.data (("netbox_").data) && (fs.initPy entry).isSome

/-- Translation of `auditor._detect_plugin_package`: the first entry of
`sorted(os.listdir(root))` that qualifies, none when no entry does
(`sorted` modelled as insertion sort under the lexicographic string
order). -/
def detectPluginPackage (fs : FS) : Option String :=
  (List.insertionSort (fun a b => strLe a b = true) fs.entries).find? (qualifies fs)

/-- The check procedures of `audit_plugin` whose bodies the specification
excludes as thin collaborators (file-existence tests, single regexes and
subprocess calls); each field carries the signature the runner calls it
with (`(plugin_path, pkg_dir) -> CategoryResult`, or `plugin_path` only
for `check_changelog` and `check_readme`). `check_versioning` and
`check_packaging` are modelled concretely above and are not fields. -/
structure ChecksEnv where
  check_structure : FS → Option String → CategoryResult
  check_pluginconfig : FS → Option String → CategoryResult
  check_pyproject : FS → Option String → CategoryResult
  check_changelog : FS → CategoryResult
  check_readme : FS → CategoryResult
  check_django_app : FS → Option String → CategoryResult
  check_workflows : FS → Option String → CategoryResult
  check_security : FS → Option String → CategoryResult
  check_certification : FS → Option String → CategoryResult
  check_github : FS → Option String → CategoryResult
  check_linting : FS → Option String → CategoryResult

/-- The summary block of `audit_plugin`: each field the sum of the
corresponding `CategoryResult` counts. -/
structure Summary where
  total : Nat
  passed : Nat
  errors : Nat
  warnings : Nat
  infos : Nat
deriving DecidableEq, Repr

/-- The dict `audit_plugin` returns: plugin name, resolved version, the
category list, the summary, and the `error` key that is present only on a
fatal clone failure. -/
structure Report where
  plugin_name : String
  version : Option String
  categories : List CategoryResult
  summary : Summary
  error : Option String

/-- Lines 180 to 184 of `auditor.py`: the element-wise sums of the
category counts. -/
def mkSummary (categories : List CategoryResult) : Summary :=
  ⟨(categories.map CategoryResult.total).sum,
   (categories.map CategoryResult.passed).sum,
   (categories.map CategoryResult.errors).sum,
   (categories.map CategoryResult.warnings).sum,
   (categories.map CategoryResult.infos).sum⟩

/-- Lines 158 to 177 of `auditor.py`: the fixed, ordered catalogue of
check calls, with the linting check appended unless `skip_lint` and the
packaging check appended unless `skip_build`. -/
def runChecks (env : ChecksEnv) (benv : BuildEnv) (fs : FS) (pkgDir : Option String)
    (skipLint skipBuild : Bool) : List CategoryResult :=
  [env.check_structure fs pkgDir,
   env.check_pluginconfig fs pkgDir,
   env.check_pyproject fs pkgDir,
   check_versioning fs pkgDir,
   env.check_changelog fs,
   env.check_readme fs,
   env.check_django_app fs pkgDir,
   env.check_workflows fs pkgDir,
   env.check_security fs pkgDir,
   env.check_certification fs pkgDir,
   env.check_github fs pkgDir] ++
  (if skipLint then [] else [env.check_linting fs pkgDir]) ++
  (if skipBuild then [] else [check_packaging benv fs])

/-- The `source` argument of `audit_plugin`: a local path (with the tree
it holds), or a git URL (dispatched on by its `http://`, `https://` or
`git@` prefix), with the tree `git clone` produces, none when the clone
fails. -/
inductive Source where
  | localPath (fs : FS)
  | gitUrl (url : String) (cloned : Option FS)

/-- The body of `audit_plugin` after acquisition: detect the package
directory, take the plugin name from it (or the root's basename when it
is falsy), resolve the version only when a package directory was found,
run the catalogue and build the summary; no `error` key. -/
def auditLocal (env : ChecksEnv) (benv : BuildEnv) (fs : FS)
    (skipLint skipBuild : Bool) : Report :=
  let pkgDir := detectPluginPackage fs
  let pluginName :=
    match pkgDir with
    | some p => if p == ("") then fs.basename else p
    | none => fs.basename
  let version := if truthy pkgDir then getPluginVersion fs (pkgDir.getD ("")) else none
  let categories := runChecks env benv fs pkgDir skipLint skipBuild
  ⟨pluginName, version, categories, mkSummary categories, none⟩

/-- Translation of `auditor.audit_plugin`: a URL whose clone fails yields
the fatal report with empty categories, the summary
`{total 0, passed 0, errors 1, warnings 0, infos 0}` and the error message
`Failed to clone <source>`; otherwise the audit body runs on the local or
cloned tree. -/
def audit_plugin (env : ChecksEnv) (benv : BuildEnv) (src : Source)
    (skipLint skipBuild : Bool) : Report :=
  match src with
  | Source.gitUrl url none =>
    ⟨url, none, [], ⟨0, 0, 1, 0, 0⟩, some ("Failed to clone " ++ url)⟩
  | Source.gitUrl _ (some fs) => auditLocal env benv fs skipLint skipBuild
  | Source.localPath fs => auditLocal env benv fs skipLint skipBuild

/-- Lines 59 to 68 of `cli.py`: exit 1 when the report's `error` key is
truthy, when strict mode sees any error or warning count, or when the
error count is positive; exit 0 otherwise. -/
def exitCode (r : Report) (strict : Bool) : Nat :=
  if truthy r.error = true then 1
  else if strict = true ∧ (r.summary.errors > 0 ∨ r.summary.warnings > 0) then 1
  else if r.summary.errors > 0 then 1
  else 0

/-- Exception-level model of the check loop of `audit_plugin` (lines 158
to 177 of `auditor.py`): each procedure may either return its
`CategoryResult` or raise (`Except.error`). The loop body is a plain
sequence of calls with no handler — the enclosing `try` has only a
`finally` — so a raise in any procedure propagates out of `audit_plugin`
and no later check runs. -/
def runCatalogueExc (checks : List (FS → Except String CategoryResult)) (fs : FS) :
    Except String (List CategoryResult) :=
  match checks with
  | [] => Except.ok []
  | c :: rest =>
    match c fs with
    | Except.error e => Except.error e
    | Except.ok r =>
      match runCatalogueExc rest fs with
      | Except.error e => Except.error e
      | Except.ok rs => Except.ok (r :: rs)

/-! ### Concrete fixtures used by the witnesses and counterexamples -/

/-- A plugin root with no children and no metadata files at all. -/
def emptyFS : FS :=
  ⟨[], fun _ => false, "plugin", fun _ => none, fun _ => none,
   false, false, none, none, false, none⟩

/-- A stand-in check procedure whose category is empty; instantiates the
excluded check procedures in concrete runs. -/
def trivCheck : FS → Option String → CategoryResult :=
  fun _ _ => ⟨"Stub", "s", []⟩

/-- A `ChecksEnv` built entirely from `trivCheck`. -/
def trivEnv : ChecksEnv :=
  ⟨trivCheck, trivCheck, trivCheck, fun fs => trivCheck fs none, fun fs => trivCheck fs none,
   trivCheck, trivCheck, trivCheck, trivCheck, trivCheck, trivCheck⟩

/-- External outcomes for concrete runs: build tool and twine missing,
package not on PyPI. -/
def trivBenv : BuildEnv :=
  ⟨BuildOutcome.toolMissing, TwineOutcome.missing, PypiOutcome.notFound⟩

/-- Entry-point file that assigns `__version__ = "1.2.3"` at top level. -/
def pyFileDirect : PyFile :=
  ⟨true, [Stmt.assignConst ("__version__") ("1.2.3")], false, false⟩

/-- Root with package `netbox_demo` whose `__init__.py` is
`pyFileDirect` and whose `pyproject.toml` declares version `1.2.0`. -/
def fsDirect : FS :=
  ⟨["netbox_demo"], fun e => e == ("netbox_demo"), "demo",
   fun e => if e == ("netbox_demo") then some pyFileDirect else none,
   fun _ => none, true, true, some ("1.2.0"), some ("netbox-demo"), false, none⟩

/-- Entry-point file with no version statement of any kind but with the
dynamic-metadata-lookup pattern in its raw source. -/
def pyFileDynamic : PyFile := ⟨true, [Stmt.other], true, true⟩

/-- Root with package `netbox_demo` in dynamic mode and `pyproject.toml`
version `2.0.0`; the changelog's latest heading is also `2.0.0`. -/
def fsDynamic : FS :=
  ⟨["netbox_demo"], fun e => e == ("netbox_demo"), "demo",
   fun e => if e == ("netbox_demo") then some pyFileDynamic else none,
   fun _ => none, true, true, some ("2.0.0"), some ("netbox-demo"), false, some ("2.0.0")⟩

/-- Entry-point file with no version information at all. -/
def pyFileBare : PyFile := ⟨true, [Stmt.other], false, false⟩

/-- Root with package `netbox_demo`, a bare `__init__.py`, and a
`pyproject.toml` that declares version `2.0.0`. -/
def fsBare : FS :=
  ⟨["netbox_demo"], fun e => e == ("netbox_demo"), "demo",
   fun e => if e == ("netbox_demo") then some pyFileBare else none,
   fun _ => none, true, true, some ("2.0.0"), some ("netbox-demo"), false, none⟩

/-- Root listing `netbox_b` before `netbox_a`, both qualifying package
directories. -/
def fsTwoPkgs : FS :=
  ⟨["netbox_b", "netbox_a"], fun _ => true, "demo",
   fun _ => some pyFileBare, fun _ => none, true, true, some ("2.0.0"),
   some ("netbox-demo"), false, none⟩

/-- A check procedure that raises. -/
def faultingCheck : FS → Except String CategoryResult :=
  fun _ => Except.error ("boom")

/-! ### Helper lemmas -/

/-- A result list's length splits into its four severity counts, because
`Severity` has exactly the four members PASS, ERROR, WARNING, INFO. -/
theorem length_countP_severities (l : List CheckResult) :
    l.length =
      l.countP (fun r => r.severity == Severity.pass)
      + l.countP (fun r => r.severity == Severity.error)
      + l.countP (fun r => r.severity == Severity.warning)
      + l.countP (fun r => r.severity == Severity.info) := by
  induction l with
  | nil => rfl
  | cons r t ih =>
    simp only [List.length_cons, List.countP_cons, ih]
    cases h : r.severity <;> simp [h] <;> omega

/-- The `CategoryResult` count invariant, in terms of the derived
properties. -/
theorem category_invariant (c : CategoryResult) :
    c.total = c.passed + c.errors + c.warnings + c.infos :=
  length_countP_severities c.results

/-! ### C1 -/

/-- C1, counterexample to the claim as stated: the fatal clone-failure
report has `summary.errors = 1` while its category list is empty, so
`summary.errors` is not the sum of the per-category error counts. -/
theorem C1_counterexample :
    (audit_plugin trivEnv trivBenv (Source.gitUrl ("https://x") none) false false).summary.errors = 1
    ∧ ((audit_plugin trivEnv trivBenv (Source.gitUrl ("https://x") none) false false).categories.map
        CategoryResult.errors).sum = 0
    ∧ (audit_plugin trivEnv trivBenv (Source.gitUrl ("https://x") none) false false).summary.errors ≠
      ((audit_plugin trivEnv trivBenv (Source.gitUrl ("https://x") none) false false).categories.map
        CategoryResult.errors).sum := by
  refine ⟨rfl, rfl, ?_⟩
  intro h
  simp [audit_plugin] at h

/-- C1, amended: for every report whose `error` key is absent (every
non-fatal run), each summary field equals the sum of the corresponding
per-category counts; and the invariant
`total = passed + errors + warnings + infos` holds for every
`CategoryResult` of every report. -/
theorem C1_summary_sums_and_invariant (env : ChecksEnv) (benv : BuildEnv)
    (src : Source) (skipLint skipBuild : Bool) :
    (∀ c ∈ (audit_plugin env benv src skipLint skipBuild).categories,
      c.total = c.passed + c.errors + c.warnings + c.infos)
    ∧ ((audit_plugin env benv src skipLint skipBuild).error = none →
      (audit_plugin env benv src skipLint skipBuild).summary.total
        = ((audit_plugin env benv src skipLint skipBuild).categories.map CategoryResult.total).sum
      ∧ (audit_plugin env benv src skipLint skipBuild).summary.passed
        = ((audit_plugin env benv src skipLint skipBuild).categories.map CategoryResult.passed).sum
      ∧ (audit_plugin env benv src skipLint skipBuild).summary.errors
        = ((audit_plugin env benv src skipLint skipBuild).categories.map CategoryResult.errors).sum
      ∧ (audit_plugin env benv src skipLint skipBuild).summary.warnings
        = ((audit_plugin env benv src skipLint skipBuild).categories.map CategoryResult.warnings).sum
      ∧ (audit_plugin env benv src skipLint skipBuild).summary.infos
        = ((audit_plugin env benv src skipLint skipBuild).categories.map CategoryResult.infos).sum) := by
  constructor
  · intro c _
    exact category_invariant c
  · intro herr
    cases src with
    | localPath fs => exact ⟨rfl, rfl, rfl, rfl, rfl⟩
    | gitUrl url cloned =>
      cases cloned with
      | none => simp [audit_plugin] at herr
      | some fs => exact ⟨rfl, rfl, rfl, rfl, rfl⟩

/-! ### C2 -/

/-- C2, counterexample to the claim as stated: a catalogue holding one
check procedure that raises makes the runner itself raise — there is no
isolation wrapper in the loop — so the run yields no report at all, let
alone a `CategoryResult` with a single Error entry. -/
theorem C2_counterexample :
    runCatalogueExc [faultingCheck] emptyFS = Except.error ("boom")
    ∧ ¬ ∃ categories, runCatalogueExc [faultingCheck] emptyFS = Except.ok categories := by
  refine ⟨rfl, ?_⟩
  rintro ⟨categories, h⟩
  simp [runCatalogueExc, faultingCheck] at h

/-- C2, amended: an unexpected fault inside a check procedure is not
caught by the runner; once every earlier procedure of the catalogue has
returned, the fault propagates out of the whole run unchanged and the
remaining checks never execute. -/
theorem C2_fault_propagates (pre post : List (FS → Except String CategoryResult))
    (c : FS → Except String CategoryResult) (fs : FS) (e : String)
    (hpre : ∀ d ∈ pre, ∃ r, d fs = Except.ok r) (hc : c fs = Except.error e) :
    runCatalogueExc (pre ++ c :: post) fs = Except.error e := by
  revert hpre
  induction pre with
  | nil =>
    intro _
    simp [runCatalogueExc, hc]
  | cons d ds ih =>
    intro hpre
    obtain ⟨r, hr⟩ := hpre d (List.mem_cons_self d ds)
    have htail := ih (fun d' hd' => hpre d' (List.mem_cons_of_mem d hd'))
    simp [runCatalogueExc, hr, htail]

/-- C2, witness: the amended theorem applied to the one-element faulting
catalogue. -/
theorem C2_witness :
    runCatalogueExc ([] ++ faultingCheck :: []) emptyFS = Except.error ("boom") :=
  C2_fault_propagates [] [] faultingCheck emptyFS ("boom")
    (by intro d hd; exact absurd hd (List.not_mem_nil d)) rfl

/-! ### C3 -/

/-- C3: when the entry-point file assigns a (truthy) literal string to
`__version__` at top level and the manifest declares a different (truthy)
version, resolution returns the module constant with origin
`directConstant`, and `check_versioning` emits the Error-severity
`pyproject_match` mismatch result. -/
theorem C3_direct_constant_precedence (fs : FS) (pkg v w : String) (f : PyFile)
    (hpkg : pkg ≠ "") (hfile : fs.initPy pkg = some f) (hok : f.parseOk = true)
    (hconst : findVersionAssign f.stmts = some v) (hv : v ≠ "")
    (hman : getPyprojectVersion fs = some w) (hw : w ≠ "") (hne : v ≠ w) :
    getPluginVersionTagged fs pkg = some (v, VersionOrigin.directConstant)
    ∧ ⟨"pyproject_match", Severity.error,
        "Version mismatch: __init__.py=" ++ v ++ ", pyproject.toml=" ++ w, ""⟩
      ∈ (check_versioning fs (some pkg)).results := by
  have hpkg' : (pkg == "") = false := beq_eq_false_iff_ne.mpr hpkg
  have hv' : (v == "") = false := beq_eq_false_iff_ne.mpr hv
  have hw' : (w == "") = false := beq_eq_false_iff_ne.mpr hw
  have hne' : (v == w) = false := beq_eq_false_iff_ne.mpr hne
  constructor
  · simp [getPluginVersionTagged, hfile, hok, hconst]
  · simp only [check_versioning, truthy, hpkg', Bool.not_false, if_pos,
      Option.getD_some, getInitVersion, hfile, hok, if_true, hconst, hman]
    simp only [staticVersionResults, truthy, hv', hw', Bool.not_false,
      Option.getD_some, hne', if_true, if_false, Bool.false_eq_true, ite_true, ite_false]
    by_cases hsem : semverMatch v <;>
      simp [hsem, hv, hne, List.mem_append]

/-- C3, witness: the theorem at the concrete root `fsDirect`
(`__version__ = "1.2.3"`, manifest version `1.2.0`). -/
theorem C3_witness :
    getPluginVersionTagged fsDirect ("netbox_demo") = some (("1.2.3"), VersionOrigin.directConstant)
    ∧ ⟨"pyproject_match", Severity.error,
        "Version mismatch: __init__.py=" ++ ("1.2.3") ++ ", pyproject.toml=" ++ ("1.2.0"), ""⟩
      ∈ (check_versioning fsDirect (some ("netbox_demo"))).results :=
  C3_direct_constant_precedence fsDirect ("netbox_demo") ("1.2.3") ("1.2.0") pyFileDirect
    (by decide) rfl rfl rfl (by decide) rfl (by decide) (by decide)

/-! ### C4 -/

/-- The changelog-comparison block never emits an Error result: its
severities are PASS, WARNING or INFO only. -/
theorem changelogMatch_no_error (a b : Option String) (r : CheckResult)
    (hr : r ∈ changelogMatchResults a b) : r.severity ≠ Severity.error := by
  simp only [changelogMatchResults] at hr
  split at hr
  · split at hr <;> (simp at hr; subst hr; simp)
  · split at hr
    · simp at hr; subst hr; simp
    · simp at hr

/-- C4: with only the dynamic-metadata-lookup pattern in the entry-point
file (no constant, no sibling-version import) and manifest version
`2.0.0`, resolution reports `2.0.0`, and no result of the versioning
category has Error severity — in particular no module/manifest mismatch
Error is emitted. -/
theorem C4_dynamic_mode (fs : FS) (pkg : String) (f : PyFile)
    (hpkg : pkg ≠ "") (hfile : fs.initPy pkg = some f) (hok : f.parseOk = true)
    (hconst : findVersionAssign f.stmts = none)
    (himp : hasVersionImport f.stmts = false)
    (hmeta : f.hasImportlibMeta = true) (hcall : f.hasMetadataVersionCall = true)
    (hman : getPyprojectVersion fs = some ("2.0.0")) :
    getPluginVersion fs pkg = some ("2.0.0")
    ∧ ∀ r ∈ (check_versioning fs (some pkg)).results, r.severity ≠ Severity.error := by
  have hpkg' : (pkg == "") = false := beq_eq_false_iff_ne.mpr hpkg
  have himpl : importVersionLookup fs pkg f.stmts = none := by
    simp [importVersionLookup, himp]
  have hsem : semverMatch ("2.0.0") = true := by decide
  constructor
  · simp [getPluginVersion, getPluginVersionTagged, hfile, hok, hconst, himpl, hmeta, hman]
  · intro r hr
    have hres : (check_versioning fs (some pkg)).results =
        dynamicVersionResults (some ("2.0.0"))
          ++ changelogMatchResults (some ("2.0.0")) fs.changelogVersion := by
      simp [check_versioning, truthy, hpkg', getInitVersion, hfile, hok, hconst,
        himpl, hmeta, hcall, hman]
    rw [hres, List.mem_append] at hr
    rcases hr with hr | hr
    · simp [dynamicVersionResults, truthy, hsem] at hr
      rcases hr with rfl | rfl <;> simp
    · exact changelogMatch_no_error _ _ r hr

/-- C4, witness: the theorem at the concrete dynamic-mode root
`fsDynamic`. -/
theorem C4_witness : getPluginVersion fsDynamic ("netbox_demo") = some ("2.0.0") :=
  (C4_dynamic_mode fsDynamic ("netbox_demo") pyFileDynamic
    (by decide) rfl rfl rfl rfl rfl rfl rfl).1

/-! ### C5 -/

/-- C5, counterexample to the claim as stated: a package whose entry-point
file has no version constant, no sibling-version import and no
dynamic-lookup pattern resolves to none even though `pyproject.toml`
declares version `2.0.0` — there is no general manifest fallback in
`_get_plugin_version`. -/
theorem C5_counterexample :
    getPluginVersion fsBare ("netbox_demo") = none
    ∧ getPyprojectVersion fsBare = some ("2.0.0") :=
  ⟨rfl, rfl⟩

/-- C5, amended: when the entry-point file yields no constant, the
sibling-version lookup yields nothing and the raw source lacks the
`importlib.metadata` marker, resolution returns none (Absent) no matter
what the manifest declares; the manifest version is consulted only behind
the dynamic-lookup marker. -/
theorem C5_absent_without_dynamic (fs : FS) (pkg : String) (f : PyFile)
    (hfile : fs.initPy pkg = some f)
    (hconst : findVersionAssign f.stmts = none)
    (himp : importVersionLookup fs pkg f.stmts = none)
    (hmeta : f.hasImportlibMeta = false) :
    getPluginVersion fs pkg = none := by
  unfold getPluginVersion getPluginVersionTagged
  rw [hfile]
  cases hp : f.parseOk <;> simp [hconst, himp, hmeta]

/-- C5, witness: the amended theorem at the concrete root `fsBare`. -/
theorem C5_witness : getPluginVersion fsBare ("netbox_demo") = none :=
  C5_absent_without_dynamic fsBare ("netbox_demo") pyFileBare rfl rfl rfl rfl

/-! ### C6 -/

/-- The lexicographic comparison is total. -/
theorem charsLe_total : ∀ as bs : List Char, charsLe as bs = true ∨ charsLe bs as = true := by
  intro as
  induction as with
  | nil => intro bs; left; rfl
  | cons a as ih =>
    intro bs
    cases bs with
    | nil => right; rfl
    | cons b bs =>
      by_cases hab : a = b
      · subst hab
        rcases ih bs with h | h
        · left; simp [charsLe, h]
        · right; simp [charsLe, h]
      · rcases lt_or_gt_of_ne hab with h | h
        · left; simp [charsLe, hab, h]
        · right; simp [charsLe, Ne.symm hab, h]

/-- The lexicographic comparison is transitive. -/
theorem charsLe_trans : ∀ as bs cs : List Char,
    charsLe as bs = true → charsLe bs cs = true → charsLe as cs = true := by
  intro as
  induction as with
  | nil => intro bs cs _ _; rfl
  | cons a as ih =>
    intro bs cs h1 h2
    cases bs with
    | nil => simp [charsLe] at h1
    | cons b bs =>
      cases cs with
      | nil => simp [charsLe] at h2
      | cons c cs =>
        simp only [charsLe] at h1 h2 ⊢
        by_cases hab : a = b
        · subst hab
          simp only [beq_self_eq_true, if_true] at h1
          by_cases hbc : a = c
          · subst hbc
            simp only [beq_self_eq_true, if_true] at h2 ⊢
            exact ih bs cs h1 h2
          · have hbc' : (a == c) = false := beq_eq_false_iff_ne.mpr hbc
            simp only [hbc', Bool.false_eq_true, if_false] at h2 ⊢
            exact h2
        · have hab' : (a == b) = false := beq_eq_false_iff_ne.mpr hab
          simp only [hab', Bool.false_eq_true, if_false, decide_eq_true_eq] at h1
          by_cases hbc : b = c
          · have hac' : (a == c) = false := beq_eq_false_iff_ne.mpr (hbc ▸ hab)
            have hlt : a < c := hbc ▸ h1
            simp [hac', hlt]
          · have hbc' : (b == c) = false := beq_eq_false_iff_ne.mpr hbc
            simp only [hbc', Bool.false_eq_true, if_false, decide_eq_true_eq] at h2
            have hac : a < c := lt_trans h1 h2
            have hac' : (a == c) = false := beq_eq_false_iff_ne.mpr (ne_of_lt hac)
            simp [hac', hac]

/-- The lexicographic comparison is reflexive. -/
theorem charsLe_refl : ∀ cs : List Char, charsLe cs cs = true := by
  intro cs
  induction cs with
  | nil => rfl
  | cons c t ih => simp [charsLe, ih]

instance : IsTotal String (fun a b => strLe a b = true) :=
  ⟨fun a b => charsLe_total a.data b.data⟩

instance : IsTrans String (fun a b => strLe a b = true) :=
  ⟨fun a b c => charsLe_trans a.data b.data c.data⟩

/-- In a list sorted under a transitive total order, `find?` returns a
minimal element among those satisfying the predicate. -/
theorem find?_sorted_min {p : String → Bool} :
    ∀ l : List String, List.Sorted (fun a b => strLe a b = true) l →
      ∀ x, l.find? p = some x → ∀ y ∈ l, p y = true → strLe x y = true := by
  intro l
  induction l with
  | nil =>
    intro _ x hx
    simp at hx
  | cons a t ih =>
    intro hs x hx y hy hpy
    rw [List.sorted_cons] at hs
    cases hpa : p a with
    | true =>
      rw [List.find?_cons_of_pos _ hpa] at hx
      cases hx
      rcases List.mem_cons.mp hy with rfl | hyt
      · exact charsLe_refl _
      · exact hs.1 y hyt
    | false =>
      rw [List.find?_cons_of_neg _ (by simp [hpa])] at hx
      rcases List.mem_cons.mp hy with rfl | hyt
      · rw [hpy] at hpa; exact absurd hpa (by simp)
      · exact ih hs.2 x hx y hyt hpy

/-- C6: package-directory discovery scans the root's immediate children
in lexicographic order and returns the first qualifying directory
(`netbox_` prefix, contains `__init__.py`): the result qualifies, lies
among the children, and is lexicographically least among all qualifying
children; discovery returns none exactly when no child qualifies; and in
every case the audit on the root still runs the whole catalogue — the
report carries no error and one category per configured check. -/
theorem C6_detect_first_qualifying (fs : FS) (env : ChecksEnv) (benv : BuildEnv)
    (skipLint skipBuild : Bool) :
    (detectPluginPackage fs = none ↔ ∀ e ∈ fs.entries, qualifies fs e = false)
    ∧ (∀ p, detectPluginPackage fs = some p →
        qualifies fs p = true ∧ p ∈ fs.entries ∧
        ∀ e ∈ fs.entries, qualifies fs e = true → strLe p e = true)
    ∧ (audit_plugin env benv (Source.localPath fs) skipLint skipBuild).error = none
    ∧ (audit_plugin env benv (Source.localPath fs) skipLint skipBuild).categories.length
        = 11 + (if skipLint then 0 else 1) + (if skipBuild then 0 else 1) := by
  have hperm := List.perm_insertionSort (fun a b => strLe a b = true) fs.entries
  have hsorted := List.sorted_insertionSort (fun a b => strLe a b = true) fs.entries
  refine ⟨?_, ?_, rfl, ?_⟩
  · unfold detectPluginPackage
    rw [List.find?_eq_none]
    constructor
    · intro h e he
      have := h e (hperm.mem_iff.mpr he)
      simpa using this
    · intro h e he
      have := h e (hperm.mem_iff.mp he)
      simp [this]
  · intro p hp
    have hq : qualifies fs p = true := List.find?_some hp
    have hmem : p ∈ fs.entries :=
      hperm.mem_iff.mp (List.mem_of_find?_eq_some hp)
    refine ⟨hq, hmem, ?_⟩
    intro e he hqe
    exact find?_sorted_min _ hsorted p hp e (hperm.mem_iff.mpr he) hqe
  · cases skipLint <;> cases skipBuild <;>
      simp [audit_plugin, auditLocal, runChecks]

/-- C6, witness: with children `netbox_b` and `netbox_a` both qualifying,
discovery selects `netbox_a`, the lexicographically first; the audit on
that root produces all 13 categories. -/
theorem C6_witness :
    qualifies fsTwoPkgs ("netbox_a") = true
    ∧ (audit_plugin trivEnv trivBenv (Source.localPath fsTwoPkgs) false false).categories.length = 13 :=
  ⟨((C6_detect_first_qualifying fsTwoPkgs trivEnv trivBenv false false).2.1
      ("netbox_a") (by decide)).1,
   (C6_detect_first_qualifying fsTwoPkgs trivEnv trivBenv false false).2.2.2⟩

/-! ### C7 -/

/-- C7: whenever an audit run ends with the fatal `error` key set — the
clone-failure path is the only one that sets it — the report's category
list is empty and its summary is exactly the single synthetic error entry
`{total 0, passed 0, errors 1, warnings 0, infos 0}`. -/
theorem C7_fatal_report_shape (env : ChecksEnv) (benv : BuildEnv) (src : Source)
    (skipLint skipBuild : Bool)
    (h : (audit_plugin env benv src skipLint skipBuild).error.isSome = true) :
    (audit_plugin env benv src skipLint skipBuild).categories = []
    ∧ (audit_plugin env benv src skipLint skipBuild).summary = ⟨0, 0, 1, 0, 0⟩ := by
  cases src with
  | localPath fs => simp [audit_plugin, auditLocal] at h
  | gitUrl url cloned =>
    cases cloned with
    | none => exact ⟨rfl, rfl⟩
    | some fs => simp [audit_plugin, auditLocal] at h

/-- C7, witness: the theorem at a concrete failed clone. -/
theorem C7_witness :
    (audit_plugin trivEnv trivBenv (Source.gitUrl ("https://x") none) false false).categories = []
    ∧ (audit_plugin trivEnv trivBenv (Source.gitUrl ("https://x") none) false false).summary
        = ⟨0, 0, 1, 0, 0⟩ :=
  C7_fatal_report_shape trivEnv trivBenv (Source.gitUrl ("https://x") none) false false rfl

/-! ### C8 -/

/-- C8: a root without the manifest file `pyproject.toml` still audits to
completion: the `error` key is absent, the packaging category is the
single Error result `pyproject.toml not found, cannot build`, and every
other configured check still contributes its category. -/
theorem C8_missing_manifest (env : ChecksEnv) (benv : BuildEnv) (fs : FS)
    (skipLint : Bool) (hman : fs.pyprojectExists = false) :
    (audit_plugin env benv (Source.localPath fs) skipLint false).error = none
    ∧ (⟨"Packaging", "B",
        [⟨"pyproject", Severity.error, "pyproject.toml not found, cannot build", ""⟩]⟩ : CategoryResult)
      ∈ (audit_plugin env benv (Source.localPath fs) skipLint false).categories
    ∧ (audit_plugin env benv (Source.localPath fs) skipLint false).categories.length
        = 11 + (if skipLint then 0 else 1) + 1 := by
  have hpack : check_packaging benv fs =
      ⟨"Packaging", "B",
        [⟨"pyproject", Severity.error, "pyproject.toml not found, cannot build", ""⟩]⟩ := by
    simp [check_packaging, hman]
  refine ⟨rfl, ?_, ?_⟩
  · simp [audit_plugin, auditLocal, runChecks, hpack]
  · cases skipLint <;> simp [audit_plugin, auditLocal, runChecks]

/-- C8, witness: the theorem at the empty root, which lacks
`pyproject.toml`; the category list still has all 13 entries. -/
theorem C8_witness :
    (⟨"Packaging", "B",
        [⟨"pyproject", Severity.error, "pyproject.toml not found, cannot build", ""⟩]⟩ : CategoryResult)
      ∈ (audit_plugin trivEnv trivBenv (Source.localPath emptyFS) false false).categories
    ∧ (audit_plugin trivEnv trivBenv (Source.localPath emptyFS) false false).categories.length = 13 :=
  ⟨(C8_missing_manifest trivEnv trivBenv emptyFS false rfl).2.1,
   (C8_missing_manifest trivEnv trivBenv emptyFS false rfl).2.2⟩

/-! ### C9 -/

/-- The clone-failure message is never the empty string, so the `error`
key it is stored under is always truthy. -/
theorem clone_error_ne_empty (url : String) : (("Failed to clone ") ++ url) ≠ ("") := by
  intro h
  have hd := congrArg String.data h
  rcases url with ⟨d⟩
  simp [String.append] at hd

/-- Truthiness of the stored clone-failure message. -/
theorem clone_error_truthy (url : String) :
    truthy (some (("Failed to clone ") ++ url)) = true := by
  simp [truthy, clone_error_ne_empty url]

/-- The summed error counts vanish exactly when no result anywhere has
Error severity. -/
theorem sum_errors_zero_iff (cats : List CategoryResult) :
    (cats.map CategoryResult.errors).sum = 0 ↔
      ∀ c ∈ cats, ∀ r ∈ c.results, r.severity ≠ Severity.error := by
  induction cats with
  | nil => simp
  | cons c t ih => simp [CategoryResult.errors, List.countP_eq_zero, Nat.add_eq_zero, ih]

/-- The summed warning counts vanish exactly when no result anywhere has
Warning severity. -/
theorem sum_warnings_zero_iff (cats : List CategoryResult) :
    (cats.map CategoryResult.warnings).sum = 0 ↔
      ∀ c ∈ cats, ∀ r ∈ c.results, r.severity ≠ Severity.warning := by
  induction cats with
  | nil => simp
  | cons c t ih => simp [CategoryResult.warnings, List.countP_eq_zero, Nat.add_eq_zero, ih]

/-- The CLI exits with 0 or 1, nothing else. -/
theorem exitCode_total (r : Report) (strict : Bool) :
    exitCode r strict = 0 ∨ exitCode r strict = 1 := by
  unfold exitCode
  split
  · right; rfl
  · split
    · right; rfl
    · split
      · right; rfl
      · left; rfl

/-- Exit-code characterization on a non-fatal report built by the audit
body. -/
theorem exitCode_eq_zero_iff (name : String) (ver : Option String)
    (cats : List CategoryResult) (strict : Bool) :
    exitCode ⟨name, ver, cats, mkSummary cats, none⟩ strict = 0 ↔
      ((∀ c ∈ cats, ∀ r ∈ c.results, r.severity ≠ Severity.error)
       ∧ (strict = true → ∀ c ∈ cats, ∀ r ∈ c.results, r.severity ≠ Severity.warning)) := by
  have hE := sum_errors_zero_iff cats
  have hW := sum_warnings_zero_iff cats
  rcases Nat.eq_zero_or_pos (cats.map CategoryResult.errors).sum with hE0 | hE0 <;>
    rcases Nat.eq_zero_or_pos (cats.map CategoryResult.warnings).sum with hW0 | hW0 <;>
    cases strict <;>
    simp_all [exitCode, truthy, mkSummary, Nat.pos_iff_ne_zero] <;>
    tauto

/-- C9: the audit's process exit code is always 0 or 1; it is 0 exactly
when no fatal error occurred, no Error-severity result exists, and — in
strict mode — no Warning-severity result exists either; otherwise it
is 1. -/
theorem C9_exit_code_policy (env : ChecksEnv) (benv : BuildEnv) (src : Source)
    (skipLint skipBuild strict : Bool) :
    (exitCode (audit_plugin env benv src skipLint skipBuild) strict = 0
      ∨ exitCode (audit_plugin env benv src skipLint skipBuild) strict = 1)
    ∧ (exitCode (audit_plugin env benv src skipLint skipBuild) strict = 0 ↔
        ((audit_plugin env benv src skipLint skipBuild).error = none
         ∧ (∀ c ∈ (audit_plugin env benv src skipLint skipBuild).categories,
              ∀ r ∈ c.results, r.severity ≠ Severity.error)
         ∧ (strict = true →
              ∀ c ∈ (audit_plugin env benv src skipLint skipBuild).categories,
                ∀ r ∈ c.results, r.severity ≠ Severity.warning))) := by
  refine ⟨exitCode_total _ strict, ?_⟩
  cases src with
  | localPath fs =>
    rw [show audit_plugin env benv (Source.localPath fs) skipLint skipBuild
        = auditLocal env benv fs skipLint skipBuild from rfl]
    unfold auditLocal
    rw [exitCode_eq_zero_iff]
    simp
  | gitUrl url cloned =>
    cases cloned with
    | some fs =>
      rw [show audit_plugin env benv (Source.gitUrl url (some fs)) skipLint skipBuild
          = auditLocal env benv fs skipLint skipBuild from rfl]
      unfold auditLocal
      rw [exitCode_eq_zero_iff]
      simp
    | none =>
      constructor
      · intro h0
        rw [show audit_plugin env benv (Source.gitUrl url none) skipLint skipBuild
            = ⟨url, none, [], ⟨0, 0, 1, 0, 0⟩, some (("Failed to clone ") ++ url)⟩ from rfl]
          at h0
        simp [exitCode, clone_error_truthy url] at h0
      · rintro ⟨herr, -, -⟩
        simp [audit_plugin] at herr

/-! ### C10 -/

/-- The dynamic-branch results carry only the names `semver` and
`pyproject_match`. -/
theorem filter_changelog_dynamic (p : Option String) :
    (dynamicVersionResults p).filter (fun r => r.name == ("changelog_match")) = [] := by
  unfold dynamicVersionResults
  split
  · dsimp only
    split <;> rfl
  · rfl

/-- Every changelog-comparison result carries the name
`changelog_match`. -/
theorem filter_changelog_self (a b : Option String) :
    (changelogMatchResults a b).filter (fun r => r.name == ("changelog_match"))
      = changelogMatchResults a b := by
  unfold changelogMatchResults
  split
  · dsimp only
    split <;> rfl
  · split <;> rfl

/-- C10: in dynamic mode the changelog comparison runs against the
manifest (pyproject) version `w` in place of a module constant: the
`changelog_match` results of the category are exactly the
changelog-comparison block applied to `w`, and that block is one PASS
result when the changelog version equals `w`, one WARNING result when it
differs, and one INFO result when the changelog has no version. -/
theorem C10_dynamic_changelog_uses_manifest (fs : FS) (pkg : String) (f : PyFile) (w : String)
    (hpkg : pkg ≠ "") (hfile : fs.initPy pkg = some f) (hok : f.parseOk = true)
    (hconst : findVersionAssign f.stmts = none)
    (himp : hasVersionImport f.stmts = false)
    (hmeta : f.hasImportlibMeta = true) (hcall : f.hasMetadataVersionCall = true)
    (hman : getPyprojectVersion fs = some w) (hw : w ≠ "") :
    ((check_versioning fs (some pkg)).results.filter (fun r => r.name == ("changelog_match")))
      = changelogMatchResults (some w) fs.changelogVersion
    ∧ (∀ c, fs.changelogVersion = some c → c ≠ "" →
        changelogMatchResults (some w) fs.changelogVersion
          = [⟨"changelog_match",
              (if w = c then Severity.pass else Severity.warning),
              (if w = c then "CHANGELOG latest version matches (" ++ c ++ ")"
               else "CHANGELOG latest (" ++ c ++ ") != version (" ++ w ++ ")"), ""⟩])
    ∧ (truthy fs.changelogVersion = false →
        changelogMatchResults (some w) fs.changelogVersion
          = [⟨"changelog_match", Severity.info, "No version found in changelog", ""⟩]) := by
  have hpkg' : (pkg == "") = false := beq_eq_false_iff_ne.mpr hpkg
  have himpl : importVersionLookup fs pkg f.stmts = none := by
    simp [importVersionLookup, himp]
  have hw' : (w == "") = false := beq_eq_false_iff_ne.mpr hw
  refine ⟨?_, ?_, ?_⟩
  · have hres : (check_versioning fs (some pkg)).results =
        dynamicVersionResults (some w)
          ++ changelogMatchResults (some w) fs.changelogVersion := by
      simp [check_versioning, truthy, hpkg', getInitVersion, hfile, hok, hconst,
        himpl, hmeta, hcall, hman]
    rw [hres, List.filter_append, filter_changelog_dynamic, filter_changelog_self,
      List.nil_append]
  · intro c hcl hc
    have hc' : (c == "") = false := beq_eq_false_iff_ne.mpr hc
    rw [hcl]
    by_cases hwc : w = c <;>
      simp [changelogMatchResults, truthy, hw', hc', hwc]
  · intro h
    simp [changelogMatchResults, truthy, hw', h]
    simp [truthy] at h
    simp [changelogMatchResults, h]

/-- C10, witness: at the concrete dynamic-mode root `fsDynamic`
(manifest and changelog both `2.0.0`), the category's `changelog_match`
results are the single PASS result. -/
theorem C10_witness :
    ((check_versioning fsDynamic (some ("netbox_demo"))).results.filter
        (fun r => r.name == ("changelog_match")))
      = [⟨"changelog_match", Severity.pass,
          "CHANGELOG latest version matches (" ++ ("2.0.0") ++ ")", ""⟩] := by
  have h := C10_dynamic_changelog_uses_manifest fsDynamic ("netbox_demo") pyFileDynamic ("2.0.0")
    (by decide) rfl rfl rfl rfl rfl rfl rfl (by decide)
  rw [h.1, h.2.1 ("2.0.0") rfl (by decide)]
  rfl

end NetboxAudit
